import Mathlib

/-!
# Verification of the voxta-client session/protocol engine

Shallow embedding of the parts of `dion-labs/voxta-client` that the
specification's claims are about:

* `src/voxta_client/client.py` — the packaged `VoxtaClient`: outbound command
  layer (`_send_client_message` / `_send_raw`), the SignalR event dispatcher
  (`_process_voxta_event`), the session-pinning handlers
  (`_handle_sessions_updated`, `_handle_chat_started`) and the callback
  registry (`on` / `_emit`).
* `src/voxta_client/models.py` — `ClientMessage.to_signalr_invocation` and the
  fixed-shape command payloads.
* `src/voxta_client.py` — the flat legacy client's `_read_loop` (frame
  splitting and per-sub-frame JSON decoding).

Modelling conventions:

* Python `Optional[str]` values become `Option String`; a JSON field that is
  absent (or `null`) reads as `none`, mirroring `dict.get`.
* Python truthiness on optional strings (`if not target_session`,
  `a or b`) is modelled by `pyTruthy` / `pyOr` (`None` and `""` are falsy).
* Side effects are captured as an ordered trace of `Action`s: handing an
  envelope to `Transport.send`, emitting a local event to registered
  callbacks, and logger calls.  Logger calls are modelled as `Action.log`
  tagged by call site; the interpolated message text is elided, and the
  two formatting-only arms of the `_process_voxta_event` logging block
  (lines 610–615) collapse to the single tag "voxta_event" since both arms
  are one `logger.info` call differing only in message text.
* Fresh `uuid.uuid4()` strings are passed in as explicit parameters.
* `json.loads` in the read loop is an external library call; it is modelled
  as an abstract `decode : String → Option α` parameter.
-/

namespace Voxta

/-- Python truthiness of an optional string: `None` and `""` are falsy. -/
def pyTruthy : Option String → Bool
  | none => false
  | some s => !s.isEmpty

/-- Python `a or b` on optional strings: `b` whenever `a` is falsy. -/
def pyOr (a b : Option String) : Option String :=
  if pyTruthy a then a else b

/-- Whether `p` occurs as a contiguous sublist of the second argument. -/
def charsContain (p : List Char) : List Char → Bool
  | [] => p.isEmpty
  | c :: rest => p.isPrefixOf (c :: rest) || charsContain p rest

/-- Python `pat in s` substring containment. -/
def pyContains (s pat : String) : Bool :=
  charsContain pat.data s.data

/- `voxta_client/constants.py` (class `EventType`) is absent from `src/`; its
values are modelled from the spec: the closed set of `$type` event names in
§6, which the dispatcher in `client.py` compares against. -/
namespace EventType

/-- Modelled from the spec: §6 closed event set (`constants.py` missing from src). -/
def WELCOME : String := "welcome"

/-- Modelled from the spec: §6 closed event set (`constants.py` missing from src). -/
def CHATS_SESSIONS_UPDATED : String := "chatsSessionsUpdated"

/-- Modelled from the spec: §6 closed event set (`constants.py` missing from src). -/
def CHAT_STARTED : String := "chatStarted"

/-- Modelled from the spec: §6 closed event set (`constants.py` missing from src). -/
def MESSAGE : String := "message"

/-- Modelled from the spec: §6 closed event set (`constants.py` missing from src). -/
def UPDATE : String := "update"

/-- Modelled from the spec: §6 closed event set (`constants.py` missing from src). -/
def ERROR : String := "error"

/-- Modelled from the spec: §6 closed event set (`constants.py` missing from src). -/
def REPLY_GENERATING : String := "replyGenerating"

/-- Modelled from the spec: §6 closed event set (`constants.py` missing from src). -/
def REPLY_START : String := "replyStart"

/-- Modelled from the spec: §6 closed event set (`constants.py` missing from src). -/
def REPLY_END : String := "replyEnd"

/-- Modelled from the spec: §6 closed event set (`constants.py` missing from src). -/
def SPEECH_PLAYBACK_START : String := "speechPlaybackStart"

/-- Modelled from the spec: §6 closed event set (`constants.py` missing from src). -/
def SPEECH_PLAYBACK_COMPLETE : String := "speechPlaybackComplete"

/-- Modelled from the spec: §6 closed event set (`constants.py` missing from src). -/
def INTERRUPT_SPEECH : String := "interruptSpeech"

/-- Modelled from the spec: §6 closed event set (`constants.py` missing from src). -/
def READY : String := "ready"

end EventType

/-- One `{chatId, sessionId, …}` entry of a `chatsSessionsUpdated` payload's
`sessions` list, accessed in the source via `dict.get` (hence `Option`). -/
structure SessionEntry where
  chatId : Option String := none
  sessionId : Option String := none
  deriving Repr, DecidableEq

/-- An inbound domain payload (the loosely-typed dict carried as the first
argument of a `ReceiveMessage` invocation), restricted to the fields the
client reads: `$type`, `messageId`/`id`, `message`, `sessionId`/`chatId`,
and `sessions`.  Absent keys are `none` / `[]`, mirroring `dict.get`. -/
structure Payload where
  dollarType : Option String := none
  messageId : Option String := none
  id : Option String := none
  message : Option String := none
  sessionId : Option String := none
  chatId : Option String := none
  sessions : List SessionEntry := []
  deriving Repr, DecidableEq

/-- The client-visible mutable state of `VoxtaClient` (`client.py` `__init__`):
`session_id`, `is_speaking`, `is_thinking`, `last_message_id`,
`_active_chat_id`. -/
structure ClientState where
  session_id : Option String := none
  is_speaking : Bool := false
  is_thinking : Bool := false
  last_message_id : Option String := none
  active_chat_id : Option String := none
  deriving Repr, DecidableEq

/-- A fixed-shape outbound command payload (`models.py` dataclasses after
`to_dict`): the `$type` discriminator plus the union of fields the embedded
commands use.  A `none` field is absent from the serialized dict
(`to_dict` skips `None` values). -/
structure CmdPayload where
  dollarType : String
  sessionId : Option String := none
  chatId : Option String := none
  messageId : Option String := none
  text : Option String := none
  value : Option String := none
  label : Option String := none
  clientVersion : Option String := none
  doReply : Option Bool := none
  doUserActionInference : Option Bool := none
  doCharacterActionInference : Option Bool := none
  invocationId : Option String := none
  deriving Repr, DecidableEq

/-- A SignalR envelope as built by `ClientMessage.to_signalr_invocation`
(`models.py` lines 474–483) and consumed by `_send_raw`. -/
structure Envelope where
  type : Nat
  invocationId : Option String := none
  target : String := "SendMessage"
  arguments : List CmdPayload := []
  deriving Repr, DecidableEq

/-- The data argument of a `_emit` call: a domain payload (generic events),
an optional session id (`ready`), or an outbound command dict
(`client_send`). -/
inductive EmitData where
  | payload (p : Payload)
  | sessionId (s : Option String)
  | cmd (c : CmdPayload)
  deriving Repr, DecidableEq

/-- One observable side effect of the client: handing an envelope to
`Transport.send`, emitting a local event, or a logger call (tagged by call
site, message text elided). -/
inductive Action where
  | send (env : Envelope)
  | emit (event : String) (data : EmitData)
  | log (tag : String)
  deriving Repr, DecidableEq

/-- `models.py` `ClientMessage.to_signalr_invocation`: wraps a command payload
in a type-1 SignalR invocation envelope. -/
def to_signalr_invocation (m : CmdPayload) (invocation_id : String) : Envelope :=
  { type := 1
    invocationId := some invocation_id
    target := "SendMessage"
    arguments := [m] }

/-- `client.py` `_send_raw` (lines 115–128): for a type-1 envelope with a
non-empty argument list, attach the invocation id onto the first argument
(a dict, mutated in place — so the envelope handed to the transport carries
it too) and emit `client_send` with that dict, then hand the envelope to
`Transport.send`. -/
def send_raw (payload : Envelope) : List Action :=
  if payload.type = 1 then
    match payload.arguments with
    | [] => [Action.send payload]
    | data :: rest =>
      if pyTruthy payload.invocationId then
        let data' := { data with invocationId := payload.invocationId }
        let payload' := { payload with arguments := data' :: rest }
        [Action.emit "client_send" (EmitData.cmd data'), Action.send payload']
      else
        [Action.send payload]
  else
    [Action.send payload]

/-- `client.py` `_send_client_message` (lines 107–113): wrap the command in an
invocation envelope with a fresh invocation id and pass it to `_send_raw`. -/
def send_client_message (invocation_id : String) (m : CmdPayload) : List Action :=
  send_raw (to_signalr_invocation m invocation_id)

/-- `client.py` `trigger_action` (lines 183–203): resolve the session id,
silently return when none, else send a `triggerAction` command with a fresh
message id. -/
def trigger_action (st : ClientState) (action : String)
    (session_id : Option String) (invocation_id fresh_message_id : String) :
    List Action :=
  let target_session := pyOr session_id st.session_id
  if !pyTruthy target_session then []
  else
    send_client_message invocation_id
      { dollarType := "triggerAction"
        sessionId := target_session
        messageId := some fresh_message_id
        value := some action }

/-- `client.py` `revert` (lines 205–216). -/
def revert (st : ClientState) (session_id : Option String)
    (invocation_id : String) : List Action :=
  let target_session := pyOr session_id st.session_id
  if !pyTruthy target_session then []
  else
    send_client_message invocation_id
      { dollarType := "revert", sessionId := target_session }

/-- `client.py` `retry` (lines 218–229). -/
def retry (st : ClientState) (session_id : Option String)
    (invocation_id : String) : List Action :=
  let target_session := pyOr session_id st.session_id
  if !pyTruthy target_session then []
  else
    send_client_message invocation_id
      { dollarType := "retry", sessionId := target_session }

/-- `client.py` `typing_start` (lines 231–242). -/
def typing_start (st : ClientState) (session_id : Option String)
    (invocation_id : String) : List Action :=
  let target_session := pyOr session_id st.session_id
  if !pyTruthy target_session then []
  else
    send_client_message invocation_id
      { dollarType := "typingStart", sessionId := target_session }

/-- `client.py` `interrupt` (lines 423–434). -/
def interrupt (st : ClientState) (session_id : Option String)
    (invocation_id : String) : List Action :=
  let target_session := pyOr session_id st.session_id
  if !pyTruthy target_session then []
  else
    send_client_message invocation_id
      { dollarType := "interrupt", sessionId := target_session }

/-- `client.py` `send_message` (lines 390–421): resolve the session id; when
none, log an error and return without sending; else log and send a `send`
command. -/
def send_message (st : ClientState) (text : String) (session_id : Option String)
    (do_reply do_user_inference do_character_inference : Bool)
    (invocation_id : String) : List Action :=
  let target_session := pyOr session_id st.session_id
  if !pyTruthy target_session then [Action.log "no_session_for_send_message"]
  else
    Action.log "sending_message" ::
      send_client_message invocation_id
        { dollarType := "send"
          sessionId := target_session
          text := some text
          doReply := some do_reply
          doUserActionInference := some do_user_inference
          doCharacterActionInference := some do_character_inference }

/-- `client.py` `subscribe_to_chat` (lines 366–376): unconditionally log and
send a `subscribeToChat` command.  Declared with `str` parameters in the
source but called from `_handle_sessions_updated` with possibly-`None`
values, hence `Option String` here. -/
def subscribe_to_chat (session_id chat_id : Option String)
    (invocation_id : String) : List Action :=
  Action.log "subscribing_to_chat" ::
    send_client_message invocation_id
      { dollarType := "subscribeToChat"
        sessionId := session_id
        chatId := chat_id }

/-- `client.py` `register_app` (lines 137–147): log and send a `registerApp`
command with the fixed client version. -/
def register_app (label : String) (invocation_id : String) : List Action :=
  Action.log "registering_app" ::
    send_client_message invocation_id
      { dollarType := "registerApp"
        clientVersion := some "1.2.1"
        label := some label }

/-- `client.py` `_handle_sessions_updated` (lines 647–660): if the event's
`sessions` list is non-empty, pick the entry whose `chatId` equals the stored
`_active_chat_id` (falling back to the first entry), unconditionally adopt its
`chatId`/`sessionId` as the pin, log, subscribe to that chat, and emit
`ready` with the adopted session id.  An empty list does nothing. -/
def handle_sessions_updated (st : ClientState) (payload : Payload)
    (invocation_id : String) : ClientState × List Action :=
  match payload.sessions with
  | [] => (st, [])
  | s0 :: _ =>
    let target :=
      ((payload.sessions.find? fun s => s.chatId == st.active_chat_id).getD s0)
    let chat_id := target.chatId
    let st' := { st with active_chat_id := chat_id, session_id := target.sessionId }
    (st',
      Action.log "pinned_to_chat" ::
        subscribe_to_chat st'.session_id chat_id invocation_id ++
          [Action.emit EventType.READY (EmitData.sessionId st'.session_id)])

/-- `client.py` `_handle_chat_started` (lines 662–668): unconditionally adopt
the payload's `sessionId` and `chatId` as the pin, log, and emit `ready` with
the new session id. -/
def handle_chat_started (st : ClientState) (payload : Payload) :
    ClientState × List Action :=
  let st' := { st with session_id := payload.sessionId
                       active_chat_id := payload.chatId }
  (st',
    [Action.log "chat_started",
     Action.emit EventType.READY (EmitData.sessionId st'.session_id)])

/-- The "Internal state management" block of `_process_voxta_event`
(`client.py` lines 617–642): per-kind handling — welcome registration,
session pinning, error-log suppression, thinking/speaking flags; unknown
kinds change nothing. -/
def internal_state_dispatch (st1 : ClientState) (payload : Payload)
    (event_type : String) (invocation_id : String) : ClientState × List Action :=
  if event_type = EventType.WELCOME then
    (st1, register_app "Voxta Python Client" invocation_id)
  else if event_type = EventType.CHATS_SESSIONS_UPDATED then
    handle_sessions_updated st1 payload invocation_id
  else if event_type = EventType.CHAT_STARTED then
    handle_chat_started st1 payload
  else if event_type = EventType.ERROR then
    let err_msg := payload.message.getD ""
    if pyContains err_msg "Chat session already exists" then
      (st1, [Action.log "ignoring_chat_session_already_exists"])
    else
      (st1, [Action.log "voxta_error"])
  else if event_type = EventType.REPLY_GENERATING ∨
      event_type = EventType.REPLY_START then
    ({ st1 with is_thinking := true }, [])
  else if event_type = EventType.REPLY_END then
    ({ st1 with is_thinking := false }, [])
  else if event_type = EventType.SPEECH_PLAYBACK_START then
    ({ st1 with is_speaking := true }, [])
  else if event_type = EventType.SPEECH_PLAYBACK_COMPLETE ∨
      event_type = EventType.INTERRUPT_SPEECH then
    ({ st1 with
        is_speaking := false
        is_thinking :=
          if event_type = EventType.INTERRUPT_SPEECH then false
          else st1.is_thinking }, [])
  else
    (st1, [])

/-- `client.py` `_process_voxta_event` (lines 594–645): discard payloads with
no `$type`; update `last_message_id` for the four tracked event kinds when a
truthy `messageId`/`id` is present; log; run the per-kind internal state
management (welcome registration, session pinning, error suppression,
thinking/speaking flags); finally always emit a generic event named exactly
the `$type` value, carrying the full payload. -/
def process_voxta_event (st : ClientState) (payload : Payload)
    (invocation_id : String) : ClientState × List Action :=
  match payload.dollarType with
  | none => (st, [])
  | some event_type =>
    let msg_id := pyOr payload.messageId payload.id
    let st1 :=
      if pyTruthy msg_id &&
          (event_type ∈ [EventType.MESSAGE, EventType.UPDATE,
            EventType.REPLY_START, EventType.SPEECH_PLAYBACK_START] : Bool) then
        { st with last_message_id := msg_id }
      else st
    let logged := [Action.log "voxta_event"]
    let r := internal_state_dispatch st1 payload event_type invocation_id
    (r.1, logged ++ r.2 ++ [Action.emit event_type (EmitData.payload payload)])

/-! ## Callback registry (`client.py` `on` / `_emit`, lines 68–88 and 670–679)

A registered callback is modelled by its observable behaviour on the emitted
data: invoking it either returns normally or raises an exception.  `_emit`
walks the list registered for the event name in order, wrapping each call in
`try/except`, so a raise is logged and the loop continues. -/

/-- The outcome of invoking one Python callback: normal return or a raised
exception (carrying its message). -/
inductive CbOutcome where
  | ok
  | raised (msg : String)
  deriving Repr, DecidableEq

/-- A registered callback, modelled by its observable behaviour on the data
it is invoked with. -/
structure Callback where
  run : EmitData → CbOutcome

/-- `client.py` `on` (lines 68–88, both the direct and the decorator form do
the same registration): append the callback to the list for `event_name`,
creating the list if absent.  The registry is the `self.callbacks` dict,
modelled as an association list keyed by event name. -/
def on_register (callbacks : List (String × List Callback)) (event_name : String)
    (cb : Callback) : List (String × List Callback) :=
  match callbacks.find? (fun kv => kv.1 == event_name) with
  | none => callbacks ++ [(event_name, [cb])]
  | some _ =>
    callbacks.map fun kv =>
      if kv.1 == event_name then (kv.1, kv.2 ++ [cb]) else kv

/-- The inner `for cb in self.callbacks[event_name]` loop of `_emit`
(lines 672–679): invoke each callback in order inside `try/except`; an
exception is caught (and logged) and the loop moves on to the next
callback.  Returns the outcome of every invocation, in invocation order. -/
def run_callbacks (cbs : List Callback) (data : EmitData) : List CbOutcome :=
  match cbs with
  | [] => []
  | cb :: rest =>
    match cb.run data with
    | CbOutcome.ok => CbOutcome.ok :: run_callbacks rest data
    | CbOutcome.raised e => CbOutcome.raised e :: run_callbacks rest data

/-- `client.py` `_emit` (lines 670–679): look the event name up in the
callbacks dict (no handlers registered means nothing runs) and run every
registered callback for it via the caught loop.  The function is total: no
exception escapes to the read loop. -/
def emit_callbacks (callbacks : List (String × List Callback))
    (event_name : String) (data : EmitData) : List CbOutcome :=
  match callbacks.find? (fun kv => kv.1 == event_name) with
  | none => []
  | some kv => run_callbacks kv.2 data

/-! ## Legacy read loop (`src/voxta_client.py` `_read_loop`, lines 313–333)

One socket read is a string possibly holding several record-separator
(0x1E) delimited sub-messages.  The loop body splits, skips sub-messages
that are empty after `strip()`, JSON-decodes each and hands every decoded
object to `_handle_server_message` in arrival order; a `JSONDecodeError`
on one sub-message is logged and skipped.  `json.loads` is modelled as an
abstract `decode` parameter; `str.strip()` as `String.trim` (Python also
strips `\x0b`/`\x0c`, immaterial here). -/

/-- The SignalR record separator, `"\x1e"`. -/
def recordSeparator : String := "\x1e"

/-- `message.split('\x1e')` from `_read_loop` (line 319). -/
def splitFrames (raw : String) : List String :=
  raw.splitOn recordSeparator

/-- The `for raw_msg in raw_messages` body of `_read_loop` (lines 320–328):
skip sub-messages that strip to empty, decode the rest, dispatch each
successfully decoded one in order, and skip (log) decode failures. -/
def processFrames (decode : String → Option α) : List String → List α
  | [] => []
  | f :: rest =>
    if (f.trim).isEmpty then processFrames decode rest
    else
      match decode f with
      | some m => m :: processFrames decode rest
      | none => processFrames decode rest

/-- One iteration of `_read_loop` on a single socket read: split on the
record separator and process every sub-message. -/
def readDispatch (decode : String → Option α) (raw : String) : List α :=
  processFrames decode (splitFrames raw)

/-! ## Helper lemmas -/

/-- `_handle_sessions_updated` never touches `last_message_id`. -/
lemma handle_sessions_updated_last_message_id (st : ClientState) (p : Payload)
    (inv : String) :
    (handle_sessions_updated st p inv).1.last_message_id = st.last_message_id := by
  unfold handle_sessions_updated
  cases p.sessions <;> rfl

/-- `_handle_chat_started` never touches `last_message_id`. -/
lemma handle_chat_started_last_message_id (st : ClientState) (p : Payload) :
    (handle_chat_started st p).1.last_message_id = st.last_message_id := rfl

/-- Dispatching a `chatsSessionsUpdated` payload runs exactly
`_handle_sessions_updated` between the event log and the generic emit, with
no `last_message_id` tracking (the kind is not tracked). -/
lemma process_sessions_updated_eq (st : ClientState) (p : Payload) (inv : String)
    (h : p.dollarType = some EventType.CHATS_SESSIONS_UPDATED) :
    process_voxta_event st p inv =
      ((handle_sessions_updated st p inv).1,
        Action.log "voxta_event" :: (handle_sessions_updated st p inv).2 ++
          [Action.emit EventType.CHATS_SESSIONS_UPDATED (EmitData.payload p)]) := by
  simp [process_voxta_event, internal_state_dispatch, h,
    EventType.CHATS_SESSIONS_UPDATED, EventType.WELCOME,
    EventType.MESSAGE, EventType.UPDATE, EventType.REPLY_START,
    EventType.SPEECH_PLAYBACK_START]

/-- Dispatching a `chatStarted` payload runs exactly `_handle_chat_started`
between the event log and the generic emit, with no `last_message_id`
tracking (the kind is not tracked). -/
lemma process_chat_started_eq (st : ClientState) (p : Payload) (inv : String)
    (h : p.dollarType = some EventType.CHAT_STARTED) :
    process_voxta_event st p inv =
      ((handle_chat_started st p).1,
        Action.log "voxta_event" :: (handle_chat_started st p).2 ++
          [Action.emit EventType.CHAT_STARTED (EmitData.payload p)]) := by
  simp [process_voxta_event, internal_state_dispatch, h,
    EventType.CHAT_STARTED, EventType.WELCOME,
    EventType.CHATS_SESSIONS_UPDATED, EventType.MESSAGE, EventType.UPDATE,
    EventType.REPLY_START, EventType.SPEECH_PLAYBACK_START]

/-- With a pinned chat absent from every entry, the matching `next(...)`
lookup fails and `_handle_sessions_updated` falls back to the first entry. -/
lemma find_matching_entry_none (sessions : List SessionEntry) (c : String)
    (habsent : ∀ s ∈ sessions, s.chatId ≠ some c) :
    sessions.find? (fun s => s.chatId == some c) = none := by
  rw [List.find?_eq_none]
  intro s hs
  simpa using habsent s hs

/-! ## Claims -/

/-- C1 counterexample: the claim says that with a pin on chat "A", a
`chatsSessionsUpdated` whose non-empty sessions list has no entry for "A"
leaves the pin (`activeChatId`) unchanged.  On the code it is false: with the
pin on "A"/"sA" and the list `[{chatId:"B",sessionId:"sB"}]`, the `next(...)`
fallback to `sessions[0]` adopts "B", so `activeChatId` is no longer "A". -/
theorem c1_counterexample :
    ¬ ((process_voxta_event
          { session_id := some "sA", active_chat_id := some "A" }
          { dollarType := some EventType.CHATS_SESSIONS_UPDATED,
            sessions := [{ chatId := some "B", sessionId := some "sB" }] }
          "inv1").1.active_chat_id = some "A") := by
  decide

/-- C1 (amended): if a chat is pinned and a `chatsSessionsUpdated` payload
arrives whose non-empty sessions list contains no entry with the pinned
chatId, the client re-pins to the first entry — adopting its chatId and
sessionId, sending a `subscribeToChat` command and emitting `ready` — rather
than leaving the pin unchanged; the pin survives only an empty list. -/
theorem c1_amended (st : ClientState) (p : Payload) (c inv : String)
    (s0 : SessionEntry) (rest : List SessionEntry)
    (hpin : st.active_chat_id = some c)
    (hty : p.dollarType = some EventType.CHATS_SESSIONS_UPDATED)
    (hs : p.sessions = s0 :: rest)
    (habsent : ∀ s ∈ p.sessions, s.chatId ≠ some c)
    (hinv : inv ≠ "") :
    process_voxta_event st p inv =
      ({ st with active_chat_id := s0.chatId, session_id := s0.sessionId },
        [Action.log "voxta_event", Action.log "pinned_to_chat",
         Action.log "subscribing_to_chat",
         Action.emit "client_send" (EmitData.cmd
           { dollarType := "subscribeToChat", sessionId := s0.sessionId,
             chatId := s0.chatId, invocationId := some inv }),
         Action.send
           { type := 1, invocationId := some inv, target := "SendMessage",
             arguments := [{ dollarType := "subscribeToChat",
                             sessionId := s0.sessionId, chatId := s0.chatId,
                             invocationId := some inv }] },
         Action.emit EventType.READY (EmitData.sessionId s0.sessionId),
         Action.emit EventType.CHATS_SESSIONS_UPDATED (EmitData.payload p)]) := by
  have hfind : p.sessions.find? (fun s => s.chatId == st.active_chat_id) = none := by
    rw [hpin]
    exact find_matching_entry_none _ c habsent
  have hne : inv.isEmpty = false := by
    cases h : inv.isEmpty
    · rfl
    · exact absurd ((String.isEmpty_iff inv).mp h) hinv
  rw [process_sessions_updated_eq st p inv hty]
  unfold handle_sessions_updated
  rw [hs] at hfind ⊢
  simp [hfind, subscribe_to_chat, send_client_message, send_raw,
    to_signalr_invocation, pyTruthy, hne]

/-- C1 witness: the amended theorem applied at the concrete counterexample
scenario (pinned to "A"/"sA", event list `[{B,sB}]`). -/
theorem c1_witness :
    process_voxta_event
        { session_id := some "sA", active_chat_id := some "A" }
        { dollarType := some EventType.CHATS_SESSIONS_UPDATED,
          sessions := [{ chatId := some "B", sessionId := some "sB" }] }
        "inv1" =
      ({ session_id := some "sB", active_chat_id := some "B" },
        [Action.log "voxta_event", Action.log "pinned_to_chat",
         Action.log "subscribing_to_chat",
         Action.emit "client_send" (EmitData.cmd
           { dollarType := "subscribeToChat", sessionId := some "sB",
             chatId := some "B", invocationId := some "inv1" }),
         Action.send
           { type := 1, invocationId := some "inv1", target := "SendMessage",
             arguments := [{ dollarType := "subscribeToChat",
                             sessionId := some "sB", chatId := some "B",
                             invocationId := some "inv1" }] },
         Action.emit EventType.READY (EmitData.sessionId (some "sB")),
         Action.emit EventType.CHATS_SESSIONS_UPDATED (EmitData.payload
           { dollarType := some EventType.CHATS_SESSIONS_UPDATED,
             sessions := [{ chatId := some "B", sessionId := some "sB" }] })]) :=
  c1_amended _ _ "A" "inv1" _ _ rfl rfl rfl (by decide) (by decide)

/-- C2: the claim (and the spec's stricter pinning rule) says that once a chat
is pinned and still present in a `chatsSessionsUpdated` list, processing the
event keeps the pin, emits no new `ready`, and never re-derives `sessionId`
from the event.  Evaluating the code at the failing input — pinned to
"A"/"sOld", event list `[{A,sNew},{B,sB}]` — shows the packaged client keeps
the chat pin on "A" but re-derives `sessionId` to "sNew" from the matching
entry and emits a fresh `ready("sNew")` (after re-sending `subscribeToChat`),
contradicting the spec's anti-hijack rule (§4.2(a), §8, §9), which the legacy
client (`src/voxta_client.py` lines 397–416) implements and documents. -/
theorem c2_code_behavior :
    (process_voxta_event
        { session_id := some "sOld", active_chat_id := some "A" }
        { dollarType := some EventType.CHATS_SESSIONS_UPDATED,
          sessions := [{ chatId := some "A", sessionId := some "sNew" },
                       { chatId := some "B", sessionId := some "sB" }] }
        "inv1").1.active_chat_id = some "A" ∧
    (process_voxta_event
        { session_id := some "sOld", active_chat_id := some "A" }
        { dollarType := some EventType.CHATS_SESSIONS_UPDATED,
          sessions := [{ chatId := some "A", sessionId := some "sNew" },
                       { chatId := some "B", sessionId := some "sB" }] }
        "inv1").1.session_id = some "sNew" ∧
    Action.emit EventType.READY (EmitData.sessionId (some "sNew")) ∈
      (process_voxta_event
        { session_id := some "sOld", active_chat_id := some "A" }
        { dollarType := some EventType.CHATS_SESSIONS_UPDATED,
          sessions := [{ chatId := some "A", sessionId := some "sNew" },
                       { chatId := some "B", sessionId := some "sB" }] }
        "inv1").2 := by
  refine ⟨by decide, by decide, ?_⟩
  decide

/-- C3: with no pin yet (`activeChatId` is `None`) and a non-empty sessions
list whose entries each carry a chatId (the spec's §4.2 entry shape
`{chatId, sessionId, …}` — the well-formedness needed because the code's
`next(...)` match would treat an entry *missing* its chatId as equal to the
absent pin), processing the `chatsSessionsUpdated` event adopts the first
entry's chatId and sessionId as the new pin, sends a `subscribeToChat`
command for that session/chat, and emits `ready` with the adopted
sessionId. -/
theorem c3_adopt_first_when_unpinned (st : ClientState) (p : Payload)
    (inv : String) (s0 : SessionEntry) (rest : List SessionEntry)
    (hpin : st.active_chat_id = none)
    (hty : p.dollarType = some EventType.CHATS_SESSIONS_UPDATED)
    (hs : p.sessions = s0 :: rest)
    (hwf : ∀ s ∈ p.sessions, s.chatId.isSome)
    (hinv : inv ≠ "") :
    process_voxta_event st p inv =
      ({ st with active_chat_id := s0.chatId, session_id := s0.sessionId },
        [Action.log "voxta_event", Action.log "pinned_to_chat",
         Action.log "subscribing_to_chat",
         Action.emit "client_send" (EmitData.cmd
           { dollarType := "subscribeToChat", sessionId := s0.sessionId,
             chatId := s0.chatId, invocationId := some inv }),
         Action.send
           { type := 1, invocationId := some inv, target := "SendMessage",
             arguments := [{ dollarType := "subscribeToChat",
                             sessionId := s0.sessionId, chatId := s0.chatId,
                             invocationId := some inv }] },
         Action.emit EventType.READY (EmitData.sessionId s0.sessionId),
         Action.emit EventType.CHATS_SESSIONS_UPDATED (EmitData.payload p)]) := by
  have hfind : p.sessions.find? (fun s => s.chatId == st.active_chat_id) = none := by
    rw [hpin, List.find?_eq_none]
    intro s hsmem
    have := hwf s hsmem
    cases h : s.chatId
    · rw [h] at this; exact absurd this (by decide)
    · simp [h]
  have hne : inv.isEmpty = false := by
    cases h : inv.isEmpty
    · rfl
    · exact absurd ((String.isEmpty_iff inv).mp h) hinv
  rw [process_sessions_updated_eq st p inv hty]
  unfold handle_sessions_updated
  rw [hs] at hfind ⊢
  simp [hfind, subscribe_to_chat, send_client_message, send_raw,
    to_signalr_invocation, pyTruthy, hne]

/-- C3 witness: the spec §8 scenario — no pin,
`[{chatId:"A",sessionId:"sA"},{chatId:"B",sessionId:"sB"}]` — pins to "A",
subscribes, and emits `ready("sA")`. -/
theorem c3_witness :
    process_voxta_event {}
        { dollarType := some EventType.CHATS_SESSIONS_UPDATED,
          sessions := [{ chatId := some "A", sessionId := some "sA" },
                       { chatId := some "B", sessionId := some "sB" }] }
        "inv1" =
      ({ active_chat_id := some "A", session_id := some "sA" },
        [Action.log "voxta_event", Action.log "pinned_to_chat",
         Action.log "subscribing_to_chat",
         Action.emit "client_send" (EmitData.cmd
           { dollarType := "subscribeToChat", sessionId := some "sA",
             chatId := some "A", invocationId := some "inv1" }),
         Action.send
           { type := 1, invocationId := some "inv1", target := "SendMessage",
             arguments := [{ dollarType := "subscribeToChat",
                             sessionId := some "sA", chatId := some "A",
                             invocationId := some "inv1" }] },
         Action.emit EventType.READY (EmitData.sessionId (some "sA")),
         Action.emit EventType.CHATS_SESSIONS_UPDATED (EmitData.payload
           { dollarType := some EventType.CHATS_SESSIONS_UPDATED,
             sessions := [{ chatId := some "A", sessionId := some "sA" },
                          { chatId := some "B", sessionId := some "sB" }] })]) :=
  c3_adopt_first_when_unpinned _ _ "inv1" _ _ rfl rfl rfl (by decide) (by decide)

/-- C4: every `chatStarted` payload, regardless of any existing pin,
unconditionally makes the payload's `sessionId`/`chatId` the new pin and
emits `ready` carrying the new sessionId (followed by the generic
`chatStarted` emit). -/
theorem c4_chat_started_repins (st : ClientState) (p : Payload) (inv : String)
    (hty : p.dollarType = some EventType.CHAT_STARTED) :
    process_voxta_event st p inv =
      ({ st with session_id := p.sessionId, active_chat_id := p.chatId },
        [Action.log "voxta_event", Action.log "chat_started",
         Action.emit EventType.READY (EmitData.sessionId p.sessionId),
         Action.emit EventType.CHAT_STARTED (EmitData.payload p)]) := by
  rw [process_chat_started_eq st p inv hty]
  simp [handle_chat_started]

/-- C4 witness: the spec §8 scenario — pinned to "A", `chatStarted` with
chatId "C"/sessionId "sC" re-pins to "C" and emits `ready("sC")`. -/
theorem c4_witness :
    process_voxta_event
        { session_id := some "sA", active_chat_id := some "A" }
        { dollarType := some EventType.CHAT_STARTED,
          sessionId := some "sC", chatId := some "C" }
        "inv1" =
      ({ session_id := some "sC", active_chat_id := some "C" },
        [Action.log "voxta_event", Action.log "chat_started",
         Action.emit EventType.READY (EmitData.sessionId (some "sC")),
         Action.emit EventType.CHAT_STARTED (EmitData.payload
           { dollarType := some EventType.CHAT_STARTED,
             sessionId := some "sC", chatId := some "C" })]) :=
  c4_chat_started_repins _ _ "inv1" rfl

/-- C5: every session-scoped command invoked with no explicit session id
while no session is pinned is a silent no-op: the guarded early return fires
before any envelope is built, so the trace holds zero transport sends and
zero emits, nothing is raised (the functions are total), and nothing is
queued (the model has no queue and the source's early `return` reaches no
buffering code; `send_message` additionally logs the condition). -/
theorem c5_unpinned_commands_noop (st : ClientState)
    (action text inv mid : String) (dr du dc : Bool)
    (hses : st.session_id = none) :
    trigger_action st action none inv mid = [] ∧
    revert st none inv = [] ∧
    retry st none inv = [] ∧
    typing_start st none inv = [] ∧
    interrupt st none inv = [] ∧
    send_message st text none dr du dc inv =
      [Action.log "no_session_for_send_message"] := by
  refine ⟨?_, ?_, ?_, ?_, ?_, ?_⟩ <;>
    simp [trigger_action, revert, retry, typing_start, interrupt, send_message,
      pyOr, pyTruthy, hses]

/-- C5 witness: the commands at a freshly constructed client state. -/
theorem c5_witness :
    trigger_action {} "wave" none "inv1" "mid1" = [] ∧
    revert {} none "inv1" = [] ∧
    retry {} none "inv1" = [] ∧
    typing_start {} none "inv1" = [] ∧
    interrupt {} none "inv1" = [] ∧
    send_message {} "hello" none true true true "inv1" =
      [Action.log "no_session_for_send_message"] :=
  c5_unpinned_commands_noop {} "wave" "hello" "inv1" "mid1" true true true rfl

/-- C6 counterexample: the claim says an error payload whose message contains
"Chat session already exists" is suppressed and no `error` event reaches
handlers.  On the code it is false: the suppression branch only skips the
client's own error log, and the unconditional generic emit at the end of
`_process_voxta_event` (line 645) still delivers the payload to handlers
registered on "error". -/
theorem c6_counterexample :
    Action.emit EventType.ERROR (EmitData.payload
        { dollarType := some EventType.ERROR,
          message := some "Chat session already exists" }) ∈
      (process_voxta_event {}
        { dollarType := some EventType.ERROR,
          message := some "Chat session already exists" }
        "inv1").2 := by
  decide

/-- C6 (amended): every server error payload is emitted as an `error` event
to handlers, whatever its message; the "Chat session already exists" check
decides only which log line the client writes (the benign-race notice
instead of an error log), and the payload never changes client state. -/
theorem c6_amended (st : ClientState) (p : Payload) (inv : String)
    (hty : p.dollarType = some EventType.ERROR) :
    process_voxta_event st p inv =
      (st,
        [Action.log "voxta_event",
         Action.log
           (if pyContains (p.message.getD "") "Chat session already exists" then
             "ignoring_chat_session_already_exists"
           else "voxta_error"),
         Action.emit EventType.ERROR (EmitData.payload p)]) := by
  rcases hC : pyContains (p.message.getD "") "Chat session already exists" <;>
    simp [process_voxta_event, internal_state_dispatch, hty, hC,
      EventType.ERROR, EventType.WELCOME, EventType.CHATS_SESSIONS_UPDATED,
      EventType.CHAT_STARTED, EventType.MESSAGE, EventType.UPDATE,
      EventType.REPLY_START, EventType.SPEECH_PLAYBACK_START]

/-- C6 witness: the amended theorem at the benign "Chat session already
exists" payload — the suppressed log line is chosen, yet the `error` event
is still emitted. -/
theorem c6_witness :
    process_voxta_event {}
        { dollarType := some EventType.ERROR,
          message := some "Chat session already exists" }
        "inv1" =
      ({},
        [Action.log "voxta_event",
         Action.log "ignoring_chat_session_already_exists",
         Action.emit EventType.ERROR (EmitData.payload
           { dollarType := some EventType.ERROR,
             message := some "Chat session already exists" })]) := by
  rw [c6_amended {}
    { dollarType := some EventType.ERROR,
      message := some "Chat session already exists" } "inv1" rfl]
  decide

/-- `processFrames` is exactly: keep the sub-messages that do not strip to
empty, then the successfully decoded ones, in arrival order. -/
lemma processFrames_eq_filterMap (decode : String → Option α) :
    ∀ fs : List String,
      processFrames decode fs =
        (fs.filter fun f => !(f.trim).isEmpty).filterMap decode := by
  intro fs
  induction fs with
  | nil => rfl
  | cons f rest ih =>
    unfold processFrames
    rcases h : (f.trim).isEmpty
    · rcases hd : decode f <;> simp [h, hd, ih]
    · simp [h, ih]

/-- C7: for a socket read split into record-separator-delimited sub-messages,
the read-loop body (i) dispatches exactly the successfully decoded non-empty
sub-messages, in arrival order, and (ii) a sub-message that fails to decode,
placed anywhere in the read, is skipped without terminating the processing
or affecting the dispatch of the sub-messages before or after it. -/
theorem c7_read_loop_isolation (α : Type) (decode : String → Option α)
    (xs ys : List String) (bad raw : String)
    (hbad : decode bad = none) :
    readDispatch decode raw =
      ((splitFrames raw).filter fun f => !(f.trim).isEmpty).filterMap decode ∧
    processFrames decode (xs ++ bad :: ys) =
      processFrames decode xs ++ processFrames decode ys := by
  constructor
  · exact processFrames_eq_filterMap decode (splitFrames raw)
  · rw [processFrames_eq_filterMap, processFrames_eq_filterMap,
      processFrames_eq_filterMap, List.filter_append, List.filterMap_append]
    rcases h : (bad.trim).isEmpty <;> simp [h, hbad]

/-- C7 witness: one read carrying a valid frame, a malformed frame, a
whitespace-only frame and another valid frame — both valid frames dispatch
in order, the rest are skipped. -/
theorem c7_witness :
    readDispatch (fun s => if s = "one" then some 1 else
        if s = "two" then some 2 else none) "one\x1ebroken\x1e \x1etwo" =
      ((splitFrames "one\x1ebroken\x1e \x1etwo").filter
          fun f => !(f.trim).isEmpty).filterMap
        (fun s => if s = "one" then some 1 else
          if s = "two" then some 2 else none) ∧
    processFrames (fun s => if s = "one" then some 1 else
        if s = "two" then some 2 else none) (["one"] ++ "broken" :: ["two"]) =
      processFrames (fun s => if s = "one" then some 1 else
          if s = "two" then some 2 else none) ["one"] ++
        processFrames (fun s => if s = "one" then some 1 else
          if s = "two" then some 2 else none) ["two"] :=
  c7_read_loop_isolation Nat _ ["one"] ["two"] "broken" "one\x1ebroken\x1e \x1etwo"
    (by decide)

/-- The caught loop of `_emit` invokes every callback: a raise is recorded
and the loop continues, so the outcomes are exactly one per callback. -/
lemma run_callbacks_eq_map (cbs : List Callback) (d : EmitData) :
    run_callbacks cbs d = cbs.map fun cb => cb.run d := by
  induction cbs with
  | nil => rfl
  | cons cb rest ih =>
    unfold run_callbacks
    rcases h : cb.run d <;> simp [h, ih]

/-- C8: (i) `_emit` invokes every registered callback for the event exactly
once, in list order, and a callback that raises is caught — its exception is
recorded and every later callback still runs, with no exception escaping
(`emit_callbacks`/`run_callbacks` are total functions into outcome lists);
(ii) `on` appends, so a callback registered after the existing ones for the
same event name runs after them — registration order is invocation order. -/
theorem c8_emit_fault_isolation (cbs : List Callback)
    (reg : List (String × List Callback)) (n : String) (cb : Callback)
    (d : EmitData) :
    run_callbacks cbs d = (cbs.map fun c => c.run d) ∧
    emit_callbacks (on_register reg n cb) n d =
      emit_callbacks reg n d ++ [cb.run d] := by
  refine ⟨run_callbacks_eq_map cbs d, ?_⟩
  unfold emit_callbacks on_register
  rcases hf : reg.find? (fun kv => kv.1 == n) with _ | ⟨kv⟩
  · simp only [hf]
    rw [List.find?_append, hf]
    simp [run_callbacks_eq_map]
  · have hkey : (kv.1 == n) = true := by
      have h := List.find?_some hf
      simpa using h
    have hpg : (fun kv : String × List Callback =>
        (if kv.1 == n then (kv.1, kv.2 ++ [cb]) else kv).1 == n) =
        fun kv => kv.1 == n := by
      funext x
      rcases h : x.1 == n <;> simp [h]
    simp only [hf]
    rw [List.find?_map]
    have hk : kv.1 = n := by simpa using hkey
    simp only [Function.comp_def, hpg, hf, Option.map_some]
    simp [hk, run_callbacks_eq_map]

/-- `internal_state_dispatch` never touches `last_message_id`: welcome
registration, pinning, error handling and the thinking/speaking flags all
leave it as it was after the tracking step. -/
lemma internal_state_dispatch_last_message_id (st : ClientState) (p : Payload)
    (t inv : String) :
    (internal_state_dispatch st p t inv).1.last_message_id =
      st.last_message_id := by
  unfold internal_state_dispatch
  split_ifs
  all_goals try rfl
  all_goals try simp [handle_sessions_updated_last_message_id,
    handle_chat_started_last_message_id]
  all_goals split <;> rfl

/-- C9: `last_message_id` changes only when the payload's `$type` is one of
`message`, `update`, `replyStart`, `speechPlaybackStart` AND the payload
carries a message id — the code's extraction `messageId or id`, where a
missing or empty field falls through (Python truthiness) — in which case it
becomes that id, last write wins; every other payload (including `$type`-less
ones and every dispatch branch) leaves it unchanged. -/
theorem c9_last_message_id_rule (st : ClientState) (p : Payload) (inv : String) :
    (process_voxta_event st p inv).1.last_message_id =
      (match p.dollarType with
       | none => st.last_message_id
       | some t =>
         if pyTruthy (pyOr p.messageId p.id) &&
             (t ∈ [EventType.MESSAGE, EventType.UPDATE, EventType.REPLY_START,
               EventType.SPEECH_PLAYBACK_START] : Bool) then
           pyOr p.messageId p.id
         else st.last_message_id) := by
  rcases hty : p.dollarType with _ | t
  · simp [process_voxta_event, hty]
  · simp only [process_voxta_event, hty]
    rw [internal_state_dispatch_last_message_id]
    split <;> rfl

/-- C10: whenever an outbound send is a SignalR invocation — a type-1
envelope whose argument list is non-empty (its head the inner command dict)
and whose invocationId is present — the client emits a local `client_send`
event carrying the inner command payload with the invocation id attached,
strictly before handing the envelope (whose first argument now also carries
the id, by dict aliasing) to the transport; in particular every command sent
through `_send_client_message` with a fresh uuid does so. -/
theorem c10_client_send_before_transport (env : Envelope) (d : CmdPayload)
    (rest : List CmdPayload) (inv : String) (m : CmdPayload)
    (h1 : env.type = 1) (h2 : env.arguments = d :: rest)
    (h3 : pyTruthy env.invocationId = true) (h4 : inv ≠ "") :
    send_raw env =
      [Action.emit "client_send"
        (EmitData.cmd { d with invocationId := env.invocationId }),
       Action.send
         { env with arguments := { d with invocationId := env.invocationId } :: rest }] ∧
    send_client_message inv m =
      [Action.emit "client_send"
        (EmitData.cmd { m with invocationId := some inv }),
       Action.send
         { type := 1, invocationId := some inv, target := "SendMessage",
           arguments := [{ m with invocationId := some inv }] }] := by
  have hne : inv.isEmpty = false := by
    cases h : inv.isEmpty
    · rfl
    · exact absurd ((String.isEmpty_iff inv).mp h) h4
  constructor
  · simp [send_raw, h1, h2, h3]
  · simp [send_client_message, send_raw, to_signalr_invocation, pyTruthy, hne]

/-- C10 witness: an `interrupt` command sent with a fresh invocation id —
`client_send` with the id-stamped payload precedes the transport send. -/
theorem c10_witness :
    send_raw
        { type := 1, invocationId := some "inv1", target := "SendMessage",
          arguments := [{ dollarType := "interrupt", sessionId := some "s1" }] } =
      [Action.emit "client_send"
        (EmitData.cmd { dollarType := "interrupt", sessionId := some "s1",
                        invocationId := some "inv1" }),
       Action.send
         { type := 1, invocationId := some "inv1", target := "SendMessage",
           arguments := [{ dollarType := "interrupt", sessionId := some "s1",
                           invocationId := some "inv1" }] }] ∧
    send_client_message "inv2" { dollarType := "retry", sessionId := some "s2" } =
      [Action.emit "client_send"
        (EmitData.cmd { dollarType := "retry", sessionId := some "s2",
                        invocationId := some "inv2" }),
       Action.send
         { type := 1, invocationId := some "inv2", target := "SendMessage",
           arguments := [{ dollarType := "retry", sessionId := some "s2",
                           invocationId := some "inv2" }] }] :=
  c10_client_send_before_transport
    { type := 1, invocationId := some "inv1", target := "SendMessage",
      arguments := [{ dollarType := "interrupt", sessionId := some "s1" }] }
    { dollarType := "interrupt", sessionId := some "s1" } [] "inv2"
    { dollarType := "retry", sessionId := some "s2" }
    rfl rfl (by decide) (by decide)

end Voxta
